import Mathlib

/-!
Shallow embedding of the GO-RTCS chat server (`src/server/main.go`), the
connection registry, the per-connection read loop of `wsHandler`, and the
broadcast fan-out, together with theorems checking the specification's
claims against this embedding.

Modelling conventions:
* The Go map `connectedClients : map[string]*websocket.Conn` is modelled as
  an association list `Registry` from client id to `Handle`; Go map
  iteration order is unspecified, so the list order stands for one possible
  iteration order and theorems quantify over the list.
* A `Handle` carries the one bit of transport behaviour the handler can
  observe during a fan-out: whether `WriteMessage` fails for it.
* `wsHandler`'s read loop is modelled by `runLoop`, consuming a finite
  prefix of the inbound events a connection can produce (a data frame, or a
  read error / disconnect).  The deferred cleanup (map delete + `conn.Close`)
  runs exactly when the loop `break`s; when the event list is exhausted the
  goroutine is still blocked in `ReadMessage`.
* The lock discipline of the broadcast section (lines 110-123) is modelled
  by an event trace (`broadcastTrace`) recording lock acquisition, the
  network writes, and lock release.
-/

/-- Transport handle for one client connection: the observable behaviour of
`*websocket.Conn` during the handler's fan-out is whether `WriteMessage`
returns an error. -/
structure Handle where
  failsWrite : Bool
deriving Repr, DecidableEq

/-- The `connectedClients` map: client id (a UUID string) to its handle. -/
abbrev Registry := List (String × Handle)

/-- Go map assignment `connectedClients[clientId] = conn` (line 74):
overwrites the entry if the key is present, otherwise adds it. -/
def mapInsert (reg : Registry) (id : String) (h : Handle) : Registry :=
  if reg.any (fun p => p.1 == id) then
    reg.map (fun p => if p.1 == id then (id, h) else p)
  else
    reg ++ [(id, h)]

/-- Go `delete(connectedClients, clientId)` (line 63): removes the key if
present, no-op otherwise. -/
def mapDelete (reg : Registry) (id : String) : Registry :=
  reg.filter (fun p => p.1 != id)

/-- `maxMessageSize` constant of `wsHandler` (line 54), passed to
`conn.SetReadLimit`. -/
def maxMessageSize : Nat := 50

/-- The emptiness check of line 96:
`len(strings.ReplaceAll(msgString, " ", "")) == 0`.
`strings.ReplaceAll(s, " ", "")` deletes exactly the space characters
(space is a single-byte rune, so byte-level and character-level deletion
agree), and the Go byte length of the result is zero iff no characters
remain, i.e. iff every character of `s` is a space. -/
def isEmptyMsg (s : String) : Bool :=
  (s.data.filter (fun c => c != ' ')).length == 0

/-- One hex digit, as `encoding/json` emits it (lowercase). -/
def hexDigit (n : Nat) : Char :=
  if n < 10 then Char.ofNat (n + 48) else Char.ofNat (n - 10 + 97)

/-- Escaping of a single character by Go `encoding/json` with the default
HTML escaping: quote and backslash are backslash-escaped, `<`, `>`, `&`
and U+2028/U+2029 become `\uXXXX` sequences, control characters below
0x20 become `\n`, `\r`, `\t` or `\u00XX`. -/
def jsonEscapeChar (c : Char) : String :=
  if c = '"' then "\\\""
  else if c = '\\' then "\\\\"
  else if c = '<' then "\\u003c"
  else if c = '>' then "\\u003e"
  else if c = '&' then "\\u0026"
  else if c = '\n' then "\\n"
  else if c = '\r' then "\\r"
  else if c = '\t' then "\\t"
  else if c.toNat < 0x20 then
    String.mk ['\\', 'u', '0', '0', hexDigit (c.toNat / 16), hexDigit (c.toNat % 16)]
  else if c.toNat = 0x2028 then "\\u2028"
  else if c.toNat = 0x2029 then "\\u2029"
  else String.singleton c

/-- Go `encoding/json` string escaping applied to a whole string. -/
def jsonEscape (s : String) : String :=
  String.join (s.data.map jsonEscapeChar)

/-- `json.Marshal(BroadcastMessage{SenderUUID: sender, Message: msg})`
(lines 42-45, 103-106, 113): Go marshals exported struct fields in
declaration order, producing
`{"SenderUUID":"...","Message":"..."}` with JSON string escaping. -/
def marshalBroadcast (sender msg : String) : String :=
  "\x7b\"SenderUUID\":\"" ++ jsonEscape sender ++ "\",\"Message\":\"" ++
    jsonEscape msg ++ "\"\x7d"

/-- The fan-out loop body (lines 112-122): iterate over the registry in
iteration order; for each client marshal the envelope and call
`WriteMessage`; on a write error, log and `break` out of the loop.
Returns the list of attempted writes as (recipient id, bytes passed to
`WriteMessage`); the write to a failing handle is attempted (and fails),
and nothing after it is attempted because of the `break`. -/
def fanoutWrites (sender msg : String) : Registry → List (String × String)
  | [] => []
  | (id, h) :: rest =>
    if h.failsWrite then
      [(id, marshalBroadcast sender msg)]
    else
      (id, marshalBroadcast sender msg) :: fanoutWrites sender msg rest

/-- Events observable on the lock/transport during the broadcast section. -/
inductive Ev where
  | lockAcq
  | lockRel
  | netWrite (id : String)
deriving Repr, DecidableEq

/-- The broadcast section of `wsHandler` (lines 110-123) as an event trace:
`clientsMutex.Lock()`, then every attempted `WriteMessage`, then
`clientsMutex.Unlock()`. -/
def broadcastTrace (reg : Registry) (sender msg : String) : List Ev :=
  Ev.lockAcq :: ((fanoutWrites sender msg reg).map (fun w => Ev.netWrite w.1)
    ++ [Ev.lockRel])

/-- Network writes performed while the lock is held, given the current lock
depth: a `netWrite` is collected iff the depth is positive at that point. -/
def writesWhileLocked : List Ev → Nat → List String
  | [], _ => []
  | Ev.lockAcq :: rest, d => writesWhileLocked rest (d + 1)
  | Ev.lockRel :: rest, d => writesWhileLocked rest (d - 1)
  | Ev.netWrite id :: rest, d =>
    if d > 0 then id :: writesWhileLocked rest d else writesWhileLocked rest d

/-- What one connection's transport can feed the read loop: a complete data
frame with its payload bytes, or a read error (peer close, network
failure).  The code installs no read deadline, no ping ticker and no pong
handler, so there is no timeout event in the alphabet. -/
inductive InEvent where
  | frame (data : String)
  | disconnect
deriving Repr, DecidableEq

/-- Result of running a prefix of one connection's read loop. -/
structure SessionResult where
  registry : Registry
  writes : List (String × String)
  closed : List String
  exited : Bool
deriving Repr, DecidableEq

/-- The read loop of `wsHandler` (lines 80-124) plus its deferred cleanup
(lines 59-69), for the connection `clientId`, consuming a finite prefix of
its inbound events:
* a read error (`disconnect`) breaks the loop; the deferred function then
  deletes `clientId` from the map and closes its own connection;
* a frame whose byte size exceeds `maxMessageSize` makes `ReadMessage`
  return `ErrReadLimit` (the connection was configured with
  `SetReadLimit(maxMessageSize)`), which likewise breaks the loop and
  triggers the deferred cleanup;
* a frame that fails the emptiness check is skipped (`continue`);
* otherwise the message is broadcast under the lock and the loop continues.
An exhausted event list means the goroutine is still blocked in
`ReadMessage`: the deferred cleanup has not run. -/
def runLoop (reg : Registry) (clientId : String) : List InEvent → SessionResult
  | [] => ⟨reg, [], [], false⟩
  | InEvent.disconnect :: _ => ⟨mapDelete reg clientId, [], [clientId], true⟩
  | InEvent.frame d :: rest =>
    if d.utf8ByteSize > maxMessageSize then
      ⟨mapDelete reg clientId, [], [clientId], true⟩
    else if isEmptyMsg d then
      runLoop reg clientId rest
    else
      let res := runLoop reg clientId rest
      ⟨res.registry, fanoutWrites clientId d reg ++ res.writes, res.closed,
        res.exited⟩

/-- A registry operation: the admission of lines 73-76 or the deferred
removal of lines 62-65. -/
inductive RegOp where
  | admitClient (id : String) (h : Handle)
  | remove (id : String)
deriving Repr, DecidableEq

/-- One registry operation under the lock, returning the new registry and
the count reported for the operation: both the admission block and the
deferred removal read `count := len(connectedClients)` under the same
`clientsMutex` critical section that performed the mutation. -/
def applyRegOp (reg : Registry) : RegOp → Registry × Nat
  | RegOp.admitClient id h =>
    let r := mapInsert reg id h
    (r, r.length)
  | RegOp.remove id =>
    let r := mapDelete reg id
    (r, r.length)

/-- Run a sequence of registry operations, collecting the count reported
(and logged) for each. -/
def runRegOps (reg : Registry) : List RegOp → Registry × List Nat
  | [] => (reg, [])
  | op :: rest =>
    let x := applyRegOp reg op
    let y := runRegOps x.1 rest
    (y.1, x.2 :: y.2)

/-- The registry state immediately after each operation of the sequence. -/
def regStates (reg : Registry) : List RegOp → List Registry
  | [] => []
  | op :: rest =>
    let r := (applyRegOp reg op).1
    r :: regStates r rest

/-- `ReadMessage` succeeds for this inbound event: it is a data frame whose
size is within the configured read limit (there is no deadline or heartbeat
in the code, so no other event can make a read fail). -/
def readSucceeds : InEvent → Bool
  | InEvent.frame d => d.utf8ByteSize ≤ maxMessageSize
  | InEvent.disconnect => false

theorem any_eq_false_of_all_ne (reg : Registry) (id : String)
    (hf : reg.all (fun p => p.1 != id) = true) :
    reg.any (fun p => p.1 == id) = false := by
  induction reg with
  | nil => rfl
  | cons p rest ih =>
    simp only [List.all_cons, Bool.and_eq_true] at hf
    simp only [List.any_cons, Bool.or_eq_false_iff]
    refine ⟨?_, ih hf.2⟩
    have h1 := hf.1
    cases hq : p.1 == id
    · rfl
    · rw [bne, hq] at h1
      cases h1

theorem mapInsert_fresh (reg : Registry) (id : String) (h : Handle)
    (hf : reg.all (fun p => p.1 != id) = true) :
    mapInsert reg id h = reg ++ [(id, h)] := by
  unfold mapInsert
  rw [any_eq_false_of_all_ne reg id hf]
  simp

theorem mapDelete_append_fresh (reg : Registry) (id : String) (h : Handle)
    (hf : reg.all (fun p => p.1 != id) = true) :
    mapDelete (reg ++ [(id, h)]) id = reg := by
  induction reg with
  | nil => simp [mapDelete, List.filter]
  | cons p rest ih =>
    simp only [List.all_cons, Bool.and_eq_true] at hf
    simp only [List.cons_append, mapDelete, List.filter_cons, hf.1, if_pos]
    exact congrArg (p :: ·) (ih hf.2)

theorem mapDelete_idem (reg : Registry) (id : String) :
    mapDelete (mapDelete reg id) id = mapDelete reg id := by
  induction reg with
  | nil => rfl
  | cons p rest ih =>
    by_cases hq : (p.1 != id) = true
    · simp only [mapDelete, List.filter_cons, hq, if_pos] at ih ⊢
      exact congrArg (p :: ·) ih
    · simp only [mapDelete, List.filter_cons, Bool.not_eq_true] at ih ⊢
      rw [Bool.not_eq_true] at hq
      rw [hq]
      exact ih

theorem fanoutWrites_payload (reg : Registry) (s m : String) :
    (fanoutWrites s m reg).all (fun w => w.2 == marshalBroadcast s m) = true := by
  induction reg with
  | nil => rfl
  | cons p rest ih =>
    obtain ⟨id, h⟩ := p
    by_cases hf : h.failsWrite = true
    · simp [fanoutWrites, hf]
    · rw [Bool.not_eq_true] at hf
      simp [fanoutWrites, hf, ih]

theorem writesWhileLocked_netWrites (ids : List String) :
    writesWhileLocked (ids.map Ev.netWrite ++ [Ev.lockRel]) 1 = ids := by
  induction ids with
  | nil => rfl
  | cons a rest ih =>
    simp only [List.map_cons, List.cons_append, writesWhileLocked]
    rw [if_pos (by decide)]
    exact congrArg (a :: ·) ih

/-- Claim C1: the claim says a write failure on one recipient does not abort
delivery and the dispatcher still attempts `write` on every remaining
recipient.  The code instead `break`s out of the fan-out loop on the first
write error: with iteration order `a` (failing) then `b`, only `a` is
attempted and `b` never receives a write attempt. -/
theorem fanout_write_failure_abandons_remaining :
    (fanoutWrites "s" "m" [("a", Handle.mk true), ("b", Handle.mk false)]).map
        Prod.fst = ["a"] ∧
      "b" ∉ (fanoutWrites "s" "m"
        [("a", Handle.mk true), ("b", Handle.mk false)]).map Prod.fst := by
  decide

/-- Claim C2 (counterexample): the claim says the bytes written to each
recipient equal the sender's payload bytes unmodified.  For payload `"hi"`
from sender `"s"`, the bytes actually passed to `WriteMessage` are the JSON
envelope, not `"hi"`. -/
theorem broadcast_bytes_not_raw_payload :
    (runLoop [("r", Handle.mk false)] "s" [InEvent.frame "hi"]).writes =
        [("r", "\x7b\"SenderUUID\":\"s\",\"Message\":\"hi\"\x7d")] ∧
      (runLoop [("r", Handle.mk false)] "s" [InEvent.frame "hi"]).writes.map
        Prod.snd ≠ ["hi"] := by
  decide

/-- Claim C2 (amended): every write attempted during a fan-out carries the
same byte sequence, namely the JSON encoding of
`BroadcastMessage{SenderUUID, Message}` for the sender and the payload —
the payload is wrapped in this envelope, not forwarded verbatim. -/
theorem broadcast_bytes_are_json_envelope (reg : Registry) (s m : String) :
    (fanoutWrites s m reg).all
      (fun w => w.2 == marshalBroadcast s m) = true :=
  fanoutWrites_payload reg s m

/-- Claim C3: the claim says a recipient whose write fails is removed from
the registry and its handle closed, and the failure does not propagate to
the rest of the fan-out.  In the code the failing write is only logged and
`break`s the loop: recipient `a` stays in the map, no handle is closed, and
the sender's loop continues. -/
theorem failed_write_leaves_recipient_registered :
    runLoop [("a", Handle.mk true), ("s", Handle.mk false)] "s"
        [InEvent.frame "hi"] =
      ⟨[("a", Handle.mk true), ("s", Handle.mk false)],
        [("a", marshalBroadcast "s" "hi")], [], false⟩ := by
  decide

/-- Claim C4 (counterexample): the claim says every payload consisting only
of whitespace characters is a no-op with zero writes.  The code strips only
spaces (`strings.ReplaceAll(msg, " ", "")`), so the whitespace-only payload
`"\t"` passes the check and is broadcast. -/
theorem tab_payload_is_broadcast :
    isEmptyMsg "\t" = false ∧
      (runLoop [("r", Handle.mk false), ("s", Handle.mk false)] "s"
        [InEvent.frame "\t"]).writes ≠ [] := by
  decide

/-- Claim C4 (amended): for every inbound payload that is empty or consists
only of space characters (the code removes only spaces, not general
whitespace), dispatch is a no-op: the frame is skipped with `continue`, so
zero writes are performed, no error reaches the sender, and the loop (and
registration) continues exactly as if the frame had not arrived. -/
theorem space_only_payload_is_noop (reg : Registry) (id d : String)
    (evs : List InEvent) (hsz : ¬ d.utf8ByteSize > maxMessageSize)
    (hemp : isEmptyMsg d = true) :
    runLoop reg id (InEvent.frame d :: evs) = runLoop reg id evs := by
  simp [runLoop, hsz, hemp]

/-- Witness for `space_only_payload_is_noop` at the all-space payload
`"   "` with one registered client. -/
theorem space_only_payload_is_noop_witness :
    (¬ ("   " : String).utf8ByteSize > maxMessageSize) ∧
      isEmptyMsg "   " = true ∧
      runLoop [("s", Handle.mk false)] "s" [InEvent.frame "   "] =
        runLoop [("s", Handle.mk false)] "s" [] :=
  ⟨by decide, by decide,
    space_only_payload_is_noop [("s", Handle.mk false)] "s" "   " []
      (by decide) (by decide)⟩

/-- Claim C5: a frame whose byte size exceeds `maxMessageSize` makes the
read fail, so nothing is broadcast (the frame is rejected, not truncated),
the connection is removed from the map and closed by the deferred cleanup
(the only close is its own), every other registered connection is left
exactly as it was, and the admission that inserted the client is undone, so
the room count decrements by exactly one. -/
theorem oversize_frame_closes_only_sender (reg : Registry) (id : String)
    (h : Handle) (d : String) (evs : List InEvent)
    (hbig : d.utf8ByteSize > maxMessageSize)
    (hfresh : reg.all (fun p => p.1 != id) = true) :
    runLoop (mapInsert reg id h) id (InEvent.frame d :: evs) =
        ⟨reg, [], [id], true⟩ ∧
      (mapInsert reg id h).length = reg.length + 1 := by
  have h1 := mapInsert_fresh reg id h hfresh
  constructor
  · simp only [runLoop, if_pos hbig]
    rw [h1, mapDelete_append_fresh reg id h hfresh]
  · rw [h1]
    simp

/-- Witness for `oversize_frame_closes_only_sender`: a 51-byte frame
against the 50-byte limit, with one other client registered. -/
theorem oversize_frame_closes_only_sender_witness :
    ("aaaaaaaaaaaaaaaaaaaaaaaaaaaaaaaaaaaaaaaaaaaaaaaaaaa" : String).utf8ByteSize
        > maxMessageSize ∧
      ([("r", Handle.mk false)] : Registry).all (fun p => p.1 != "c") = true ∧
      (runLoop (mapInsert [("r", Handle.mk false)] "c" (Handle.mk false)) "c"
          [InEvent.frame
            "aaaaaaaaaaaaaaaaaaaaaaaaaaaaaaaaaaaaaaaaaaaaaaaaaaa"] =
          ⟨[("r", Handle.mk false)], [], ["c"], true⟩ ∧
        (mapInsert [("r", Handle.mk false)] "c" (Handle.mk false)).length =
          ([("r", Handle.mk false)] : Registry).length + 1) :=
  ⟨by decide, by decide,
    oversize_frame_closes_only_sender [("r", Handle.mk false)] "c"
      (Handle.mk false)
      "aaaaaaaaaaaaaaaaaaaaaaaaaaaaaaaaaaaaaaaaaaaaaaaaaaa" [] (by decide)
      (by decide)⟩

/-- Claim C6: over every sequence of admit/remove operations, the count
reported (and logged) for each operation equals the number of entries in
the registry map immediately after that operation's mutation — the code
reads `len(connectedClients)` inside the same `clientsMutex` critical
section that performed the mutation. -/
theorem reported_counts_match_registry (reg : Registry) (ops : List RegOp) :
    (runRegOps reg ops).2 = (regStates reg ops).map List.length := by
  induction ops generalizing reg with
  | nil => rfl
  | cons op rest ih =>
    simp only [runRegOps, regStates, List.map_cons, List.cons.injEq]
    exact ⟨by cases op <;> rfl, ih _⟩

/-- Claim C7: the claim says a client that stops answering liveness probes
is removed within `pongWait`.  The code installs no read deadline, no ping
ticker and no pong handler, so the only way a connection leaves the
registry is a failed read caused by the client itself: as long as every
inbound event is a successfully read frame — and in particular for a silent
client that produces no events at all — the registry is unchanged, nothing
is closed, and the loop never exits. -/
theorem silent_client_never_removed (reg : Registry) (id : String)
    (evs : List InEvent) (hok : evs.all readSucceeds = true) :
    (runLoop reg id evs).registry = reg ∧
      (runLoop reg id evs).closed = [] ∧
      (runLoop reg id evs).exited = false := by
  induction evs with
  | nil => exact ⟨rfl, rfl, rfl⟩
  | cons e rest ih =>
    cases e with
    | disconnect =>
      rw [List.all_cons] at hok
      rw [show readSucceeds InEvent.disconnect = false from rfl] at hok
      exact absurd hok (by simp)
    | frame d =>
      simp only [List.all_cons, Bool.and_eq_true, readSucceeds,
        decide_eq_true_eq] at hok
      have hsz : ¬ d.utf8ByteSize > maxMessageSize := not_lt.mpr hok.1
      have ih2 := ih (by simpa using hok.2)
      by_cases hemp : isEmptyMsg d = true
      · simp only [runLoop, if_neg hsz, hemp, if_pos]
        exact ih2
      · rw [Bool.not_eq_true] at hemp
        have hstep : runLoop reg id (InEvent.frame d :: rest) =
            ⟨(runLoop reg id rest).registry,
              fanoutWrites id d reg ++ (runLoop reg id rest).writes,
              (runLoop reg id rest).closed,
              (runLoop reg id rest).exited⟩ := by
          simp only [runLoop, if_neg hsz, hemp]
          rw [if_neg Bool.false_ne_true]
        rw [hstep]
        exact ih2

/-- Witness for `silent_client_never_removed`: a completely silent client
(no inbound events) with itself registered stays registered, unclosed and
blocked in `ReadMessage`. -/
theorem silent_client_never_removed_witness :
    (([] : List InEvent).all readSucceeds = true) ∧
      (runLoop [("c", Handle.mk false)] "c" []).registry =
          [("c", Handle.mk false)] ∧
        (runLoop [("c", Handle.mk false)] "c" []).closed = [] ∧
        (runLoop [("c", Handle.mk false)] "c" []).exited = false :=
  ⟨by decide, silent_client_never_removed [("c", Handle.mk false)] "c" []
    (by decide)⟩

/-- Claim C8 (counterexample): the claim says every fan-out write happens
outside the registry lock's critical section.  With one registered
recipient, the broadcast trace performs its `WriteMessage` between
`clientsMutex.Lock()` and `clientsMutex.Unlock()`, so the set of writes
performed while the lock is held is not empty. -/
theorem fanout_write_inside_lock :
    writesWhileLocked (broadcastTrace [("a", Handle.mk false)] "s" "hi") 0 =
        ["a"] ∧
      writesWhileLocked (broadcastTrace [("a", Handle.mk false)] "s" "hi") 0 ≠
        [] := by
  decide

/-- Claim C8 (amended): the broadcast section acquires the exclusive
registry lock before the fan-out loop and releases it only after, so every
attempted `WriteMessage` of the fan-out — network I/O — happens inside the
lock's critical section, for every registry and message. -/
theorem fanout_writes_all_under_lock (reg : Registry) (s m : String) :
    writesWhileLocked (broadcastTrace reg s m) 0 =
      (fanoutWrites s m reg).map Prod.fst := by
  show writesWhileLocked
      ((fanoutWrites s m reg).map (fun w => Ev.netWrite w.1) ++ [Ev.lockRel])
      1 = (fanoutWrites s m reg).map Prod.fst
  have h1 : (fanoutWrites s m reg).map (fun w => Ev.netWrite w.1) =
      ((fanoutWrites s m reg).map Prod.fst).map Ev.netWrite := by
    rw [List.map_map]
    rfl
  rw [h1, writesWhileLocked_netWrites]

/-- Claim C9: removing the same identity twice leaves the same registry and
the same reported count as removing it once — `delete` on an absent key is
a no-op and `len` is read the same way, so the second remove changes
nothing. -/
theorem remove_twice_eq_remove_once (reg : Registry) (id : String) :
    applyRegOp (applyRegOp reg (RegOp.remove id)).1 (RegOp.remove id) =
      applyRegOp reg (RegOp.remove id) := by
  show (mapDelete (mapDelete reg id) id,
      (mapDelete (mapDelete reg id) id).length) =
    (mapDelete reg id, (mapDelete reg id).length)
  rw [mapDelete_idem]

/-- Claim C10 (counterexample): the claim says the fan-out attempts a write
to every entry in the registry including the sender's own connection.  With
iteration order `a` (failing) then the sender `s`, the loop `break`s at `a`
and never attempts the sender's write, so the sender does not receive a
copy of its own message. -/
theorem sender_skipped_after_failure :
    (fanoutWrites "s" "hi"
        [("a", Handle.mk true), ("s", Handle.mk false)]).map Prod.fst =
        ["a"] ∧
      "s" ∉ (fanoutWrites "s" "hi"
        [("a", Handle.mk true), ("s", Handle.mk false)]).map Prod.fst := by
  decide

/-- Claim C10 (amended): when no registered handle fails its write, the
fan-out attempts a write to every entry of the registry in iteration order
— there is no self-echo suppression, so the sender's own connection is
among the attempted recipients whenever it is registered and the sender
receives a copy of its own message. -/
theorem fanout_attempts_all_including_sender (reg : Registry) (s m : String)
    (hok : reg.all (fun p => !p.2.failsWrite) = true) :
    (fanoutWrites s m reg).map Prod.fst = reg.map Prod.fst := by
  induction reg with
  | nil => rfl
  | cons p rest ih =>
    obtain ⟨id, h⟩ := p
    simp only [List.all_cons, Bool.and_eq_true, Bool.not_eq_true'] at hok
    simp only [fanoutWrites, hok.1, Bool.false_eq_true, if_neg,
      List.map_cons]
    exact congrArg (id :: ·) (ih hok.2)

/-- Witness for `fanout_attempts_all_including_sender`: two healthy
clients, one of them the sender `"s"`; the attempted recipients are exactly
the registry keys, sender included. -/
theorem fanout_attempts_all_including_sender_witness :
    (([("a", Handle.mk false), ("s", Handle.mk false)] : Registry).all
        (fun p => !p.2.failsWrite) = true) ∧
      (fanoutWrites "s" "hi"
          [("a", Handle.mk false), ("s", Handle.mk false)]).map Prod.fst =
        ([("a", Handle.mk false), ("s", Handle.mk false)] : Registry).map
          Prod.fst :=
  ⟨by decide, fanout_attempts_all_including_sender
    [("a", Handle.mk false), ("s", Handle.mk false)] "s" "hi" (by decide)⟩
